import Mathlib

/-!
Shallow embedding of the OAuth 2.0 authorization-server proxy in
`src/oauth.ts` (mcp-billcom).  The in-memory `Map` stores become
association lists over `String` keys; `Date.now()` becomes an explicit
`now : Nat` (milliseconds); the `randomUUID()` calls become explicit
parameters carrying the freshly generated values; the outbound Google
token exchange becomes an oracle parameter with its resolved outcome.
SHA-256 and base64url (node `createHash("sha256").digest("base64url")`)
are implemented concretely below.
-/

/-! ### Finite maps as association lists (JS `Map` semantics under `get`/`set`/`delete`) -/

def mget {α : Type} : List (String × α) → String → Option α
  | [], _ => none
  | (k, v) :: t, k2 => if k = k2 then some v else mget t k2

def mdel {α : Type} : List (String × α) → String → List (String × α)
  | [], _ => []
  | (k, v) :: t, k2 => if k = k2 then mdel t k2 else (k, v) :: mdel t k2

def mset {α : Type} (l : List (String × α)) (k : String) (v : α) : List (String × α) :=
  (k, v) :: mdel l k

theorem mget_mdel_self {α : Type} (l : List (String × α)) (k : String) :
    mget (mdel l k) k = none := by
  induction l with
  | nil => rfl
  | cons p t ih =>
    obtain ⟨k1, v1⟩ := p
    by_cases h : k1 = k
    · simpa [mdel, h] using ih
    · simp [mdel, h, mget, ih]

theorem mget_mdel_ne {α : Type} (l : List (String × α)) (k k2 : String) (h : k2 ≠ k) :
    mget (mdel l k) k2 = mget l k2 := by
  induction l with
  | nil => rfl
  | cons p t ih =>
    obtain ⟨k1, v1⟩ := p
    by_cases h1 : k1 = k
    · subst h1
      simp [mdel, mget, Ne.symm h, ih]
    · by_cases h2 : k1 = k2 <;> simp [mdel, mget, h1, h2, h, ih]

theorem mget_mset_self {α : Type} (l : List (String × α)) (k : String) (v : α) :
    mget (mset l k v) k = some v := by
  simp [mset, mget]

theorem mget_mset_ne {α : Type} (l : List (String × α)) (k k2 : String) (v : α) (h : k2 ≠ k) :
    mget (mset l k v) k2 = mget l k2 := by
  simp [mset, mget, Ne.symm h, mget_mdel_ne l k k2 h]

/-! ### SHA-256 (FIPS 180-4) with base64url (no padding) output,
modelling `createHash("sha256").update(input).digest("base64url")`.
32-bit words are `Nat` values kept below 2^32 by explicit `% 4294967296`. -/

def rotr32 (n x : Nat) : Nat := ((x >>> n) ||| (x <<< (32 - n))) % 4294967296

def ssig0 (x : Nat) : Nat := rotr32 7 x ^^^ rotr32 18 x ^^^ (x >>> 3)

def ssig1 (x : Nat) : Nat := rotr32 17 x ^^^ rotr32 19 x ^^^ (x >>> 10)

def sha256K : List Nat :=
  [1116352408, 1899447441, 3049323471, 3921009573,
   961987163, 1508970993, 2453635748, 2870763221,
   3624381080, 310598401, 607225278, 1426881987,
   1925078388, 2162078206, 2614888103, 3248222580,
   3835390401, 4022224774, 264347078, 604807628,
   770255983, 1249150122, 1555081692, 1996064986,
   2554220882, 2821834349, 2952996808, 3210313671,
   3336571891, 3584528711, 113926993, 338241895,
   666307205, 773529912, 1294757372, 1396182291,
   1695183700, 1986661051, 2177026350, 2456956037,
   2730485921, 2820302411, 3259730800, 3345764771,
   3516065817, 3600352804, 4094571909, 275423344,
   430227734, 506948616, 659060556, 883997877,
   958139571, 1322822218, 1537002063, 1747873779,
   1955562222, 2024104815, 2227730452, 2361852424,
   2428436474, 2756734187, 3204031479, 3329325298]

structure Hash8 where
  a : Nat
  b : Nat
  c : Nat
  d : Nat
  e : Nat
  f : Nat
  g : Nat
  h : Nat
deriving Repr, DecidableEq

def sha256Init : Hash8 :=
  ⟨1779033703, 3144134277, 1013904242, 2773480762,
   1359893119, 2600822924, 528734635, 1541459225⟩

def utf8Char (c : Nat) : List Nat :=
  if c < 0x80 then [c]
  else if c < 0x800 then [0xc0 ||| (c >>> 6), 0x80 ||| (c &&& 63)]
  else if c < 0x10000 then
    [0xe0 ||| (c >>> 12), 0x80 ||| ((c >>> 6) &&& 63), 0x80 ||| (c &&& 63)]
  else
    [0xf0 ||| (c >>> 18), 0x80 ||| ((c >>> 12) &&& 63), 0x80 ||| ((c >>> 6) &&& 63),
     0x80 ||| (c &&& 63)]

def utf8Bytes (s : String) : List Nat :=
  s.data.foldr (fun c acc => utf8Char c.toNat ++ acc) []

def be8 (n : Nat) : List Nat :=
  [(n >>> 56) % 256, (n >>> 48) % 256, (n >>> 40) % 256, (n >>> 32) % 256,
   (n >>> 24) % 256, (n >>> 16) % 256, (n >>> 8) % 256, n % 256]

def be4 (n : Nat) : List Nat :=
  [(n >>> 24) % 256, (n >>> 16) % 256, (n >>> 8) % 256, n % 256]

def padMsg (msg : List Nat) : List Nat :=
  msg ++ 0x80 :: List.replicate ((119 - msg.length % 64) % 64) 0 ++ be8 (msg.length * 8)

def toBlocksAux : Nat → List Nat → List (List Nat)
  | 0, _ => []
  | _ + 1, [] => []
  | n + 1, b :: rest => (b :: rest).take 64 :: toBlocksAux n ((b :: rest).drop 64)

def toBlocks (l : List Nat) : List (List Nat) := toBlocksAux l.length l

def toWords : List Nat → List Nat
  | b0 :: b1 :: b2 :: b3 :: rest =>
    (b0 * 16777216 + b1 * 65536 + b2 * 256 + b3) :: toWords rest
  | _ => []

def scheduleAux : Nat → List Nat → List Nat
  | 0, w => w
  | n + 1, w =>
    scheduleAux n
      (((ssig1 (w.getD 1 0) + w.getD 6 0 + ssig0 (w.getD 14 0) + w.getD 15 0) % 4294967296) :: w)

def msgSchedule (block : List Nat) : List Nat :=
  (scheduleAux 48 (toWords block).reverse).reverse

def shaStep (s : Hash8) (k w : Nat) : Hash8 :=
  let bigS1 := rotr32 6 s.e ^^^ rotr32 11 s.e ^^^ rotr32 25 s.e
  let ch := (s.e &&& s.f) ^^^ ((4294967295 ^^^ s.e) &&& s.g)
  let t1 := (s.h + bigS1 + ch + k + w) % 4294967296
  let bigS0 := rotr32 2 s.a ^^^ rotr32 13 s.a ^^^ rotr32 22 s.a
  let maj := (s.a &&& s.b) ^^^ (s.a &&& s.c) ^^^ (s.b &&& s.c)
  let t2 := (bigS0 + maj) % 4294967296
  ⟨(t1 + t2) % 4294967296, s.a, s.b, s.c, (s.d + t1) % 4294967296, s.e, s.f, s.g⟩

def compressBlock (s : Hash8) (block : List Nat) : Hash8 :=
  let fin := (List.zip sha256K (msgSchedule block)).foldl (fun acc kw => shaStep acc kw.1 kw.2) s
  ⟨(s.a + fin.a) % 4294967296, (s.b + fin.b) % 4294967296, (s.c + fin.c) % 4294967296,
   (s.d + fin.d) % 4294967296, (s.e + fin.e) % 4294967296, (s.f + fin.f) % 4294967296,
   (s.g + fin.g) % 4294967296, (s.h + fin.h) % 4294967296⟩

def sha256Bytes (msg : List Nat) : List Nat :=
  let fin := (toBlocks (padMsg msg)).foldl compressBlock sha256Init
  be4 fin.a ++ be4 fin.b ++ be4 fin.c ++ be4 fin.d ++
  be4 fin.e ++ be4 fin.f ++ be4 fin.g ++ be4 fin.h

def b64Chars : List Char :=
  "ABCDEFGHIJKLMNOPQRSTUVWXYZabcdefghijklmnopqrstuvwxyz0123456789-_".data

def b64c (n : Nat) : Char := b64Chars.getD n 'A'

def b64urlNoPad : List Nat → List Char
  | b0 :: b1 :: b2 :: rest =>
    b64c (b0 >>> 2) :: b64c (((b0 &&& 3) <<< 4) ||| (b1 >>> 4)) ::
    b64c (((b1 &&& 15) <<< 2) ||| (b2 >>> 6)) :: b64c (b2 &&& 63) :: b64urlNoPad rest
  | [b0, b1] =>
    [b64c (b0 >>> 2), b64c (((b0 &&& 3) <<< 4) ||| (b1 >>> 4)), b64c ((b1 &&& 15) <<< 2)]
  | [b0] => [b64c (b0 >>> 2), b64c ((b0 &&& 3) <<< 4)]
  | [] => []

/-- The `sha256` helper of `src/oauth.ts`: SHA-256 digest of the UTF-8 bytes of
`input`, base64url-encoded without padding. -/
def sha256 (input : String) : String :=
  ⟨b64urlNoPad (sha256Bytes (utf8Bytes input))⟩

/-! ### Data model (`src/oauth.ts` interfaces) -/

structure OAuthConfig where
  serverUrl : String
  googleClientId : String
  googleClientSecret : String
deriving Repr, DecidableEq

structure RegisteredClient where
  clientId : String
  clientSecret : String
  redirectUris : List String
  clientName : String
deriving Repr, DecidableEq

structure PendingAuth where
  clientId : String
  redirectUri : String
  codeChallenge : String
  codeChallengeMethod : String
  clientState : String
  createdAt : Nat
deriving Repr, DecidableEq

structure AuthCode where
  code : String
  clientId : String
  redirectUri : String
  codeChallenge : String
  codeChallengeMethod : String
  googleEmail : String
  expiresAt : Nat
deriving Repr, DecidableEq

structure StoredToken where
  clientId : String
  googleEmail : String
  expiresAt : Nat
deriving Repr, DecidableEq

/-- The five module-level in-memory stores of `src/oauth.ts`. -/
structure ServerState where
  clients : List (String × RegisteredClient)
  pendingAuths : List (String × PendingAuth)
  authCodes : List (String × AuthCode)
  accessTokens : List (String × StoredToken)
  refreshTokens : List (String × StoredToken)
deriving Repr, DecidableEq

/-- JS truthiness for an optional request parameter: `undefined` and the empty
string are falsy; any other string is truthy. -/
def truthy : Option String → Bool
  | none => false
  | some s => !(s == "")

/-! ### `/oauth/authorize` handler -/

structure AuthorizeRequest where
  response_type : Option String
  client_id : Option String
  redirect_uri : Option String
  code_challenge : Option String
  code_challenge_method : Option String
  state : Option String
deriving Repr, DecidableEq

/-- A redirect URL as base address plus ordered query parameters. -/
structure RedirectUrl where
  base : String
  params : List (String × String)
deriving Repr, DecidableEq

inductive AuthorizeOutcome where
  | err (status : Nat) (error : String) (descr : Option String)
  | redirect (url : RedirectUrl)
deriving Repr, DecidableEq

/-- The IdP-facing redirect URL built in the authorize handler
(lines 209-216 of `src/oauth.ts`): it is a function of the server
configuration and the freshly generated `googleState` only. -/
def googleAuthUrl (config : OAuthConfig) (googleState : String) : RedirectUrl :=
  { base := "https://accounts.google.com/o/oauth2/v2/auth",
    params := [("client_id", config.googleClientId),
               ("redirect_uri", config.serverUrl ++ "/oauth/callback"),
               ("response_type", "code"),
               ("scope", "openid email"),
               ("state", googleState),
               ("access_type", "offline"),
               ("prompt", "consent")] }

/-- The `/oauth/authorize` handler.  `googleState` is the value produced by the
`randomUUID()` call, `now` the value of `Date.now()`. -/
def handleAuthorize (config : OAuthConfig) (googleState : String) (now : Nat)
    (req : AuthorizeRequest) (st : ServerState) : AuthorizeOutcome × ServerState :=
  if req.response_type ≠ some "code" then
    (.err 400 "unsupported_response_type" none, st)
  else if truthy req.client_id = false ∨ truthy req.redirect_uri = false then
    (.err 400 "invalid_request" (some "client_id and redirect_uri required"), st)
  else if truthy req.code_challenge = false ∨ req.code_challenge_method ≠ some "S256" then
    (.err 400 "invalid_request" (some "PKCE with S256 required"), st)
  else
    (.redirect (googleAuthUrl config googleState),
     { st with
       pendingAuths := mset st.pendingAuths googleState
         ({ clientId := req.client_id.getD "",
            redirectUri := req.redirect_uri.getD "",
            codeChallenge := req.code_challenge.getD "",
            codeChallengeMethod := req.code_challenge_method.getD "",
            clientState := req.state.getD "",
            createdAt := now }) })

/-! ### `/oauth/callback` handler -/

structure CallbackRequest where
  code : Option String
  state : Option String
  error : Option String
deriving Repr, DecidableEq

inductive CallbackOutcome where
  | errPage (status : Nat) (message : String)
  | redirect (uri : String) (code : String) (clientState : Option String)
deriving Repr, DecidableEq

/-- The `/oauth/callback` handler.  `allowedEmails` is the parsed
`ALLOWED_EMAILS` environment variable (`none` when unset); `exchangeResult`
is the resolved outcome of the outbound `exchangeGoogleCode` call (`.error`
when that call throws); `ourCode` is the `randomUUID()` value used as the
freshly minted authorization code; `now` is `Date.now()`. -/
def handleCallback (allowedEmails : Option (List String))
    (exchangeResult : Except String String) (ourCode : String) (now : Nat)
    (req : CallbackRequest) (st : ServerState) : CallbackOutcome × ServerState :=
  if truthy req.error then
    (.errPage 400 ("OAuth error: " ++ req.error.getD ""), st)
  else
    match req.state.bind (mget st.pendingAuths) with
    | none => (.errPage 400 "Invalid or expired state parameter", st)
    | some pending =>
      let st1 := { st with pendingAuths := mdel st.pendingAuths (req.state.getD "") }
      match exchangeResult with
      | .error _ => (.errPage 500 "Authentication failed", st1)
      | .ok email =>
        if (match allowedEmails with
            | some allowed => decide (email ∉ allowed)
            | none => false) then
          (.errPage 403 "Access denied", st1)
        else
          (.redirect pending.redirectUri ourCode
             (if pending.clientState ≠ "" then some pending.clientState else none),
           { st1 with
             authCodes := mset st1.authCodes ourCode
              ({ code := ourCode,
                 clientId := pending.clientId,
                 redirectUri := pending.redirectUri,
                 codeChallenge := pending.codeChallenge,
                 codeChallengeMethod := pending.codeChallengeMethod,
                 googleEmail := email,
                 expiresAt := now + 5 * 60000 }) })

/-! ### `/oauth/token` handler -/

structure TokenRequest where
  grant_type : Option String
  code : Option String
  redirect_uri : Option String
  client_id : Option String
  client_secret : Option String
  code_verifier : Option String
  refresh_token : Option String
deriving Repr, DecidableEq

inductive TokenOutcome where
  | err (status : Nat) (error : String) (descr : Option String)
  | ok (access_token : String) (token_type : String) (expires_in : Nat)
       (refresh_token : Option String)
deriving Repr, DecidableEq

/-- Line 291-295 of `src/oauth.ts`: a registered client whose stored secret
does not exactly equal the supplied secret; unregistered client ids never
trip this check. -/
def secretMismatch (st : ServerState) (cid : String) (secret : Option String) : Bool :=
  match mget st.clients cid with
  | some c => !(secret == some c.clientSecret)
  | none => false

/-- The `/oauth/token` handler.  `newAccess` and `newRefresh` are the values
produced by the two `randomUUID()` calls (the second is unused on the
refresh path); `now` is `Date.now()` in milliseconds. -/
def handleToken (now : Nat) (newAccess newRefresh : String)
    (req : TokenRequest) (st : ServerState) : TokenOutcome × ServerState :=
  if truthy req.client_id = false then
    (.err 400 "invalid_request" (some "client_id required"), st)
  else
    let cid := req.client_id.getD ""
    if secretMismatch st cid req.client_secret then
      (.err 401 "invalid_client" none, st)
    else if req.grant_type = some "authorization_code" then
      match req.code.bind (mget st.authCodes) with
      | none => (.err 400 "invalid_grant" (some "Invalid or expired code"), st)
      | some authCode =>
        let st1 := { st with authCodes := mdel st.authCodes (req.code.getD "") }
        if now > authCode.expiresAt then
          (.err 400 "invalid_grant" (some "Code expired"), st1)
        else if authCode.clientId ≠ cid ∨ some authCode.redirectUri ≠ req.redirect_uri then
          (.err 400 "invalid_grant" (some "Client/redirect mismatch"), st1)
        else if truthy req.code_verifier = false ∨
            sha256 (req.code_verifier.getD "") ≠ authCode.codeChallenge then
          (.err 400 "invalid_grant" (some "PKCE verification failed"), st1)
        else
          (.ok newAccess "Bearer" 3600 (some newRefresh),
           { st1 with
             accessTokens := mset st1.accessTokens newAccess
               ({ clientId := cid, googleEmail := authCode.googleEmail,
                  expiresAt := now + 3600 * 1000 }),
             refreshTokens := mset st1.refreshTokens newRefresh
               ({ clientId := cid, googleEmail := authCode.googleEmail, expiresAt := 0 }) })
    else if req.grant_type = some "refresh_token" then
      match req.refresh_token.bind (mget st.refreshTokens) with
      | none => (.err 400 "invalid_grant" (some "Invalid refresh token"), st)
      | some stored =>
        if stored.clientId ≠ cid then
          (.err 400 "invalid_grant" (some "Invalid refresh token"), st)
        else
          (.ok newAccess "Bearer" 3600 none,
           { st with
             accessTokens := mset st.accessTokens newAccess
              ({ clientId := cid, googleEmail := stored.googleEmail,
                 expiresAt := now + 3600 * 1000 }) })
    else
      (.err 400 "unsupported_grant_type" none, st)

/-! ### `requireAuth` bearer middleware -/

inductive AuthOutcome where
  | unauthorized (status : Nat) (body : String)
  | next
deriving Repr, DecidableEq

/-- The `requireAuth` middleware.  The check
`authHeader?.startsWith("Bearer ")` of the source is embedded as the equivalent
character-level test `h.take 7 = "Bearer "` (a string starts with a prefix
p exactly when its first `p.length` characters equal `p`), and
`authHeader.slice(7)` as `h.drop 7`.  The JSON body is modelled by its
single `error` field value. -/
def requireAuth (now : Nat) (authHeader : Option String)
    (accessTokens : List (String × StoredToken)) : AuthOutcome :=
  match authHeader with
  | none => .unauthorized 401 "Unauthorized"
  | some h =>
    if h.take 7 ≠ "Bearer " then .unauthorized 401 "Unauthorized"
    else
      match mget accessTokens (h.drop 7) with
      | none => .unauthorized 401 "Unauthorized"
      | some stored =>
        if now > stored.expiresAt then .unauthorized 401 "Unauthorized"
        else .next

/-! ### Helper lemmas -/

theorem take7_bearer (t : String) : ("Bearer " ++ t).take 7 = "Bearer " := by
  apply String.ext
  rw [String.data_take, String.data_append]
  rw [show (7 : Nat) = "Bearer ".data.length from rfl, List.take_left]

theorem drop7_bearer (t : String) : ("Bearer " ++ t).drop 7 = t := by
  apply String.ext
  rw [String.data_drop, String.data_append]
  rw [show (7 : Nat) = "Bearer ".data.length from rfl, List.drop_left]

theorem requireAuth_present (now : Nat) (t : String)
    (toks : List (String × StoredToken)) (tk : StoredToken)
    (hget : mget toks t = some tk) :
    requireAuth now (some ("Bearer " ++ t)) toks =
      if now > tk.expiresAt then .unauthorized 401 "Unauthorized" else .next := by
  simp [requireAuth, take7_bearer, drop7_bearer, hget]

/-! ### Claim C8 -/

/-- C8: every failing outcome of the bearer middleware — missing header,
header not of the form Bearer token, unknown token, or expired token —
produces the identical response, status 401 with error body Unauthorized;
and the middleware passes exactly when the header is present, starts with
the Bearer marker, and names a stored token whose expiry has not passed. -/
theorem requireAuth_uniform_unauthorized (now : Nat) (hdr : Option String)
    (toks : List (String × StoredToken)) :
    (requireAuth now hdr toks = .next ∨
     requireAuth now hdr toks = .unauthorized 401 "Unauthorized") ∧
    (requireAuth now hdr toks = .next ↔
      ∃ h, hdr = some h ∧ h.take 7 = "Bearer " ∧
        ∃ tk, mget toks (h.drop 7) = some tk ∧ now ≤ tk.expiresAt) := by
  cases hdr with
  | none =>
    refine ⟨Or.inr rfl, ?_, ?_⟩
    · intro hc
      simp [requireAuth] at hc
    · rintro ⟨h, hh, -⟩
      exact Option.noConfusion hh
  | some h =>
    by_cases ht : h.take 7 = "Bearer "
    · cases hget : mget toks (h.drop 7) with
      | none =>
        refine ⟨Or.inr ?_, ?_, ?_⟩
        · simp [requireAuth, ht, hget]
        · intro hc
          simp [requireAuth, ht, hget] at hc
        · rintro ⟨h2, hh2, ht2, tk, hget2, -⟩
          cases hh2
          rw [hget] at hget2
          exact Option.noConfusion hget2
      | some tk =>
        by_cases hexp : now > tk.expiresAt
        · refine ⟨Or.inr ?_, ?_, ?_⟩
          · simp [requireAuth, ht, hget, hexp]
          · intro hc
            simp [requireAuth, ht, hget, hexp] at hc
          · rintro ⟨h2, hh2, ht2, tk2, hget2, hle⟩
            cases hh2
            rw [hget] at hget2
            cases hget2
            omega
        · refine ⟨Or.inl ?_, ?_, ?_⟩
          · simp [requireAuth, ht, hget, hexp]
          · intro _
            exact ⟨h, rfl, ht, tk, hget, by omega⟩
          · intro _
            simp [requireAuth, ht, hget, hexp]
    · refine ⟨Or.inr ?_, ?_, ?_⟩
      · simp [requireAuth, ht]
      · intro hc
        simp [requireAuth, ht] at hc
      · rintro ⟨h2, hh2, ht2, -⟩
        cases hh2
        exact absurd ht2 ht

theorem requireAuth_next_iff (now : Nat) (t : String)
    (toks : List (String × StoredToken)) (tk : StoredToken)
    (h : mget toks t = some tk) :
    requireAuth now (some ("Bearer " ++ t)) toks = .next ↔ now ≤ tk.expiresAt := by
  rw [requireAuth_present now t toks tk h]
  by_cases hx : now > tk.expiresAt
  · simp [hx]
  · simp [hx]
    omega

theorem handleToken_ok_accessTokens (now : Nat) (a r : String)
    (req : TokenRequest) (st : ServerState)
    (hsucc : ∃ ei rt, (handleToken now a r req st).1 = .ok a "Bearer" ei rt) :
    ∃ cid email, (handleToken now a r req st).2.accessTokens =
      mset st.accessTokens a ⟨cid, email, now + 3600 * 1000⟩ := by
  by_cases c1 : truthy req.client_id = false
  · simp [handleToken, c1] at hsucc
  · by_cases c2 : secretMismatch st (req.client_id.getD "") req.client_secret
    · simp [handleToken, c1, c2] at hsucc
    · by_cases g1 : req.grant_type = some "authorization_code"
      · cases hlook : req.code.bind (mget st.authCodes) with
        | none => simp [handleToken, c1, c2, g1, hlook] at hsucc
        | some ac =>
          by_cases e1 : now > ac.expiresAt
          · simp [handleToken, c1, c2, g1, hlook, e1] at hsucc
          · by_cases m1 : ac.clientId ≠ req.client_id.getD "" ∨
                some ac.redirectUri ≠ req.redirect_uri
            · simp only [handleToken, c1, c2, g1, hlook, e1, m1] at hsucc
              simp at hsucc
            · by_cases p1 : truthy req.code_verifier = false ∨
                  sha256 (req.code_verifier.getD "") ≠ ac.codeChallenge
              · simp only [handleToken, c1, c2, g1, hlook, e1, m1, p1] at hsucc
                simp at hsucc
              · refine ⟨req.client_id.getD "", ac.googleEmail, ?_⟩
                simp [handleToken, c1, c2, g1, hlook, e1, m1, p1]
      · by_cases g2 : req.grant_type = some "refresh_token"
        · cases hlook : req.refresh_token.bind (mget st.refreshTokens) with
          | none => simp [handleToken, c1, c2, g1, g2, hlook] at hsucc
          | some stored =>
            by_cases s1 : stored.clientId ≠ req.client_id.getD ""
            · simp [handleToken, c1, c2, g1, g2, hlook, s1] at hsucc
            · refine ⟨req.client_id.getD "", stored.googleEmail, ?_⟩
              simp [handleToken, c1, c2, g1, g2, hlook, s1]
        · simp [handleToken, c1, c2, g1, g2] at hsucc

/-! ### Claim C3 -/

/-- C3: a successful token call stores the issued AccessToken with expiry
equal to issuance time plus 3600 seconds (times are milliseconds); the
bearer check accepts a stored token exactly when the current time is not
strictly greater than its expiry; in particular the fresh token is
accepted at age 3599 seconds and rejected with the 401 outcome at age
3601 seconds. -/
theorem accessToken_lifetime (now : Nat) (a r : String)
    (req : TokenRequest) (st : ServerState)
    (hsucc : ∃ ei rt, (handleToken now a r req st).1 = .ok a "Bearer" ei rt) :
    (∃ tk, mget (handleToken now a r req st).2.accessTokens a = some tk ∧
       tk.expiresAt = now + 3600 * 1000) ∧
    requireAuth (now + 3599 * 1000) (some ("Bearer " ++ a))
      (handleToken now a r req st).2.accessTokens = .next ∧
    requireAuth (now + 3601 * 1000) (some ("Bearer " ++ a))
      (handleToken now a r req st).2.accessTokens = .unauthorized 401 "Unauthorized" ∧
    (∀ (now2 : Nat) (toks : List (String × StoredToken)) (t : String) (tk : StoredToken),
       mget toks t = some tk →
       (requireAuth now2 (some ("Bearer " ++ t)) toks = .next ↔ now2 ≤ tk.expiresAt)) := by
  obtain ⟨cid, email, hacc⟩ := handleToken_ok_accessTokens now a r req st hsucc
  have hget : mget (handleToken now a r req st).2.accessTokens a =
      some ⟨cid, email, now + 3600 * 1000⟩ := by
    rw [hacc]; exact mget_mset_self _ _ _
  refine ⟨⟨_, hget, rfl⟩, ?_, ?_, ?_⟩
  · rw [requireAuth_present _ _ _ _ hget]
    simp
  · rw [requireAuth_present _ _ _ _ hget]
    simp
  · intro now2 toks t tk h
    exact requireAuth_next_iff now2 t toks tk h

/-- Concrete refresh-grant request used by the C3 witness. -/
def c3req : TokenRequest :=
  { grant_type := some "refresh_token", code := none, redirect_uri := none,
    client_id := some "cl1", client_secret := none, code_verifier := none,
    refresh_token := some "r1" }

/-- Concrete server state used by the C3 witness. -/
def c3st : ServerState :=
  { clients := [], pendingAuths := [], authCodes := [], accessTokens := [],
    refreshTokens := [("r1", ⟨"cl1", "a@x.com", 0⟩)] }

/-- C3 witness: a concrete refresh-grant call at time 0 issues a token
accepted at 3599 seconds after issuance. -/
theorem accessToken_lifetime_witness :
    (∃ ei rt, (handleToken 0 "at1" "rt1" c3req c3st).1 = .ok "at1" "Bearer" ei rt) ∧
    requireAuth (0 + 3599 * 1000) (some ("Bearer " ++ "at1"))
      (handleToken 0 "at1" "rt1" c3req c3st).2.accessTokens = .next := by
  refine ⟨⟨3600, none, by decide⟩, ?_⟩
  exact (accessToken_lifetime 0 "at1" "rt1" c3req c3st ⟨3600, none, by decide⟩).2.1

/-! ### Claim C7 -/

/-- C7: at the token endpoint a missing client_id fails invalid_request; a
client_id registered in the client store whose stored secret is not exactly
the supplied secret fails invalid_client before any grant processing, with
the state unchanged; and for an unregistered client_id the outcome does not
depend on the supplied client_secret at all (the secret check is skipped
and processing rests on PKCE alone). -/
theorem token_client_validation (now : Nat) (a r : String)
    (req : TokenRequest) (st : ServerState) :
    (truthy req.client_id = false →
      handleToken now a r req st = (.err 400 "invalid_request" (some "client_id required"), st)) ∧
    (∀ c, truthy req.client_id = true →
      mget st.clients (req.client_id.getD "") = some c →
      req.client_secret ≠ some c.clientSecret →
      handleToken now a r req st = (.err 401 "invalid_client" none, st)) ∧
    (mget st.clients (req.client_id.getD "") = none →
      ∀ s1 s2, handleToken now a r { req with client_secret := s1 } st =
               handleToken now a r { req with client_secret := s2 } st) := by
  refine ⟨?_, ?_, ?_⟩
  · intro h
    simp [handleToken, h]
  · intro c h hc hsec
    simp [handleToken, h, secretMismatch, hc, hsec]
  · intro hnone s1 s2
    simp [handleToken, secretMismatch, hnone]

/-- Concrete registered client and store for the C7 witness. -/
def c7st : ServerState :=
  { clients := [("cl1", ⟨"cl1", "sec1", ["https://cb"], "n"⟩)],
    pendingAuths := [], authCodes := [], accessTokens := [], refreshTokens := [] }

/-- Concrete token request naming the registered client with a wrong secret. -/
def c7req : TokenRequest :=
  { grant_type := some "refresh_token", code := none, redirect_uri := none,
    client_id := some "cl1", client_secret := some "wrong", code_verifier := none,
    refresh_token := some "r1" }

/-- C7 witness: the three clauses at concrete inputs — missing client_id,
registered client with a wrong secret, and an unregistered client id whose
outcome ignores the secret. -/
theorem token_client_validation_witness :
    (truthy (none : Option String) = false ∧
      handleToken 0 "a" "r" { c7req with client_id := none } c7st =
        (.err 400 "invalid_request" (some "client_id required"), c7st)) ∧
    (truthy c7req.client_id = true ∧
      mget c7st.clients (c7req.client_id.getD "") = some ⟨"cl1", "sec1", ["https://cb"], "n"⟩ ∧
      c7req.client_secret ≠ some "sec1" ∧
      handleToken 0 "a" "r" c7req c7st = (.err 401 "invalid_client" none, c7st)) ∧
    (mget c7st.clients "unregistered" = none ∧
      handleToken 0 "a" "r"
        { c7req with client_id := some "unregistered", client_secret := some "x" } c7st =
      handleToken 0 "a" "r"
        { c7req with client_id := some "unregistered", client_secret := some "y" } c7st) := by
  refine ⟨⟨by decide, ?_⟩, ⟨by decide, by decide, by decide, ?_⟩, ⟨by decide, ?_⟩⟩
  · exact (token_client_validation 0 "a" "r" { c7req with client_id := none } c7st).1 (by decide)
  · exact (token_client_validation 0 "a" "r" c7req c7st).2.1
      ⟨"cl1", "sec1", ["https://cb"], "n"⟩ (by decide) (by decide) (by decide)
  · exact (token_client_validation 0 "a" "r"
      { c7req with client_id := some "unregistered" } c7st).2.2 (by decide) (some "x") (some "y")

/-! ### Claim C6 -/

/-- C6: the authorize endpoint fails unsupported_response_type when
response_type is not code; otherwise fails invalid_request when client_id
or redirect_uri is missing, or when code_challenge is missing or
code_challenge_method is not S256; and in every failure case the server
state — in particular the pending-authorization store — is unchanged. -/
theorem authorize_validation (config : OAuthConfig) (googleState : String) (now : Nat)
    (req : AuthorizeRequest) (st : ServerState) :
    (req.response_type ≠ some "code" →
      handleAuthorize config googleState now req st =
        (.err 400 "unsupported_response_type" none, st)) ∧
    (req.response_type = some "code" →
      (truthy req.client_id = false ∨ truthy req.redirect_uri = false) →
      handleAuthorize config googleState now req st =
        (.err 400 "invalid_request" (some "client_id and redirect_uri required"), st)) ∧
    (req.response_type = some "code" →
      truthy req.client_id = true → truthy req.redirect_uri = true →
      (truthy req.code_challenge = false ∨ req.code_challenge_method ≠ some "S256") →
      handleAuthorize config googleState now req st =
        (.err 400 "invalid_request" (some "PKCE with S256 required"), st)) := by
  refine ⟨?_, ?_, ?_⟩
  · intro h
    simp [handleAuthorize, h]
  · intro h1 h2
    simp [handleAuthorize, h1, h2]
  · intro h1 h2 h3 h4
    simp [handleAuthorize, h1, h2, h3, h4]

/-- Concrete authorize request (valid except as overridden) for the C6 witness. -/
def c6req : AuthorizeRequest :=
  { response_type := some "code", client_id := some "cl1",
    redirect_uri := some "https://cb", code_challenge := some "ch",
    code_challenge_method := some "S256", state := some "s" }

/-- Concrete empty server state for the C6 and C9 witnesses. -/
def emptyState : ServerState :=
  { clients := [], pendingAuths := [], authCodes := [], accessTokens := [], refreshTokens := [] }

/-- Concrete IdP configuration for the C6 and C9 witnesses. -/
def cfgW : OAuthConfig :=
  { serverUrl := "https://proxy", googleClientId := "gid", googleClientSecret := "gsec" }

/-- C6 witness: the three failure clauses at concrete inputs — a token
response_type, a missing redirect_uri, and a plain code_challenge_method —
each leaving the state unchanged. -/
theorem authorize_validation_witness :
    ({ c6req with response_type := some "token" }.response_type ≠ some "code" ∧
      handleAuthorize cfgW "gs" 0 { c6req with response_type := some "token" } emptyState =
        (.err 400 "unsupported_response_type" none, emptyState)) ∧
    (handleAuthorize cfgW "gs" 0 { c6req with redirect_uri := none } emptyState =
        (.err 400 "invalid_request" (some "client_id and redirect_uri required"), emptyState)) ∧
    (handleAuthorize cfgW "gs" 0 { c6req with code_challenge_method := some "plain" } emptyState =
        (.err 400 "invalid_request" (some "PKCE with S256 required"), emptyState)) := by
  refine ⟨⟨by decide, ?_⟩, ?_, ?_⟩
  · exact (authorize_validation cfgW "gs" 0
      { c6req with response_type := some "token" } emptyState).1 (by decide)
  · exact (authorize_validation cfgW "gs" 0
      { c6req with redirect_uri := none } emptyState).2.1 (by decide) (by decide)
  · exact (authorize_validation cfgW "gs" 0
      { c6req with code_challenge_method := some "plain" } emptyState).2.2
      (by decide) (by decide) (by decide) (by decide)

theorem handleAuthorize_success (config : OAuthConfig) (googleState : String) (now : Nat)
    (req : AuthorizeRequest) (st : ServerState)
    (hrt : req.response_type = some "code") (hc : truthy req.client_id = true)
    (hr : truthy req.redirect_uri = true) (hch : truthy req.code_challenge = true)
    (hm : req.code_challenge_method = some "S256") :
    handleAuthorize config googleState now req st =
      (.redirect (googleAuthUrl config googleState),
       { st with
         pendingAuths := mset st.pendingAuths googleState
           ⟨req.client_id.getD "", req.redirect_uri.getD "", req.code_challenge.getD "",
            req.code_challenge_method.getD "", req.state.getD "", now⟩ }) := by
  simp [handleAuthorize, hrt, hc, hr, hch, hm]

/-! ### Claim C9 -/

/-- C9: a successful authorize call creates exactly one PendingAuthorization
under the freshly generated state key and leaves every other store
untouched; the redirect sent to the IdP is a function of the server
configuration and the fresh nonce only, so two successful calls that differ
in all caller-supplied inputs (and even in server state) produce identical
IdP redirects; and the IdP-facing state parameter is the fresh nonce
itself. -/
theorem authorize_confidential (config : OAuthConfig) (googleState : String) (now : Nat)
    (req1 req2 : AuthorizeRequest) (st1 st2 : ServerState)
    (hrt1 : req1.response_type = some "code") (hc1 : truthy req1.client_id = true)
    (hr1 : truthy req1.redirect_uri = true) (hch1 : truthy req1.code_challenge = true)
    (hm1 : req1.code_challenge_method = some "S256")
    (hrt2 : req2.response_type = some "code") (hc2 : truthy req2.client_id = true)
    (hr2 : truthy req2.redirect_uri = true) (hch2 : truthy req2.code_challenge = true)
    (hm2 : req2.code_challenge_method = some "S256") :
    (handleAuthorize config googleState now req1 st1).1 =
      (handleAuthorize config googleState now req2 st2).1 ∧
    (handleAuthorize config googleState now req1 st1).1 =
      .redirect (googleAuthUrl config googleState) ∧
    ("state", googleState) ∈ (googleAuthUrl config googleState).params ∧
    mget (handleAuthorize config googleState now req1 st1).2.pendingAuths googleState =
      some ⟨req1.client_id.getD "", req1.redirect_uri.getD "", req1.code_challenge.getD "",
            req1.code_challenge_method.getD "", req1.state.getD "", now⟩ ∧
    (∀ k, k ≠ googleState →
      mget (handleAuthorize config googleState now req1 st1).2.pendingAuths k =
        mget st1.pendingAuths k) ∧
    (handleAuthorize config googleState now req1 st1).2.clients = st1.clients ∧
    (handleAuthorize config googleState now req1 st1).2.authCodes = st1.authCodes ∧
    (handleAuthorize config googleState now req1 st1).2.accessTokens = st1.accessTokens ∧
    (handleAuthorize config googleState now req1 st1).2.refreshTokens = st1.refreshTokens := by
  rw [handleAuthorize_success config googleState now req1 st1 hrt1 hc1 hr1 hch1 hm1,
      handleAuthorize_success config googleState now req2 st2 hrt2 hc2 hr2 hch2 hm2]
  refine ⟨rfl, rfl, ?_, mget_mset_self _ _ _, ?_, rfl, rfl, rfl, rfl⟩
  · simp [googleAuthUrl]
  · intro k hk
    exact mget_mset_ne _ _ _ _ hk

/-- Second concrete authorize request, differing from `c6req` in every
caller-supplied field, for the C9 witness. -/
def c9req2 : AuthorizeRequest :=
  { response_type := some "code", client_id := some "other-client",
    redirect_uri := some "https://other/cb", code_challenge := some "otherch",
    code_challenge_method := some "S256", state := some "otherstate" }

/-- C9 witness: two concrete authorize calls differing in client_id,
redirect_uri, code_challenge and caller state produce the identical IdP
redirect, whose state parameter is the fresh nonce. -/
theorem authorize_confidential_witness :
    (handleAuthorize cfgW "nonce1" 0 c6req emptyState).1 =
      (handleAuthorize cfgW "nonce1" 0 c9req2 emptyState).1 ∧
    ("state", "nonce1") ∈ (googleAuthUrl cfgW "nonce1").params := by
  have h := authorize_confidential cfgW "nonce1" 0 c6req c9req2 emptyState emptyState
    (by decide) (by decide) (by decide) (by decide) (by decide)
    (by decide) (by decide) (by decide) (by decide) (by decide)
  exact ⟨h.1, h.2.2.1⟩

theorem handleCallback_success (allowedEmails : Option (List String)) (email ourCode : String)
    (now : Nat) (req : CallbackRequest) (st : ServerState) (pending : PendingAuth)
    (herr : truthy req.error = false)
    (hpend : req.state.bind (mget st.pendingAuths) = some pending)
    (hallow : allowedEmails = none ∨ ∃ l, allowedEmails = some l ∧ email ∈ l) :
    handleCallback allowedEmails (.ok email) ourCode now req st =
      (.redirect pending.redirectUri ourCode
         (if pending.clientState ≠ "" then some pending.clientState else none),
       { st with
         pendingAuths := mdel st.pendingAuths (req.state.getD ""),
         authCodes := mset st.authCodes ourCode
           ⟨ourCode, pending.clientId, pending.redirectUri, pending.codeChallenge,
            pending.codeChallengeMethod, email, now + 5 * 60000⟩ }) := by
  rcases hallow with h | ⟨l, hl, hmem⟩
  · subst h
    simp [handleCallback, herr, hpend]
  · subst hl
    simp [handleCallback, herr, hpend, hmem]

/-! ### Claim C10 -/

/-- C10: a callback carrying a non-empty error query parameter fails with a
400 page before the pending-authorization lookup, leaving the whole state
(in particular the PendingAuthorization keyed by the supplied state)
untouched, so a later callback presenting the same state without an error
still succeeds. -/
theorem callback_error_preserves_pending (allowedEmails : Option (List String))
    (exch : Except String String) (ourCode : String) (now : Nat)
    (req : CallbackRequest) (st : ServerState)
    (herr : truthy req.error = true) :
    handleCallback allowedEmails exch ourCode now req st =
      (.errPage 400 ("OAuth error: " ++ req.error.getD ""), st) ∧
    (∀ (req2 : CallbackRequest) (pending : PendingAuth) (email ourCode2 : String)
       (now2 : Nat) (allowed2 : Option (List String)),
       truthy req2.error = false → req2.state = req.state →
       req.state.bind (mget st.pendingAuths) = some pending →
       (allowed2 = none ∨ ∃ l, allowed2 = some l ∧ email ∈ l) →
       (handleCallback allowed2 (.ok email) ourCode2 now2 req2 st).1 =
         .redirect pending.redirectUri ourCode2
           (if pending.clientState ≠ "" then some pending.clientState else none)) := by
  constructor
  · simp [handleCallback, herr]
  · intro req2 pending email ourCode2 now2 allowed2 herr2 hstate hpend hallow
    rw [handleCallback_success allowed2 email ourCode2 now2 req2 st pending herr2
      (by rw [hstate]; exact hpend) hallow]

/-- Concrete pending-authorization store for the callback witnesses. -/
def c10st : ServerState :=
  { clients := [], pendingAuths := [("gs1", ⟨"cl1", "https://cb", "ch", "S256", "cs", 0⟩)],
    authCodes := [], accessTokens := [], refreshTokens := [] }

/-- C10 witness: a concrete errored callback returns the 400 page and leaves
the state intact, and a retry with the same state and no error succeeds. -/
theorem callback_error_preserves_pending_witness :
    handleCallback none (.ok "a@x.com") "code1" 0
      { code := some "c", state := some "gs1", error := some "access_denied" } c10st =
      (.errPage 400 "OAuth error: access_denied", c10st) ∧
    (handleCallback none (.ok "a@x.com") "code2" 5
      { code := some "c", state := some "gs1", error := none } c10st).1 =
      .redirect "https://cb" "code2" (some "cs") := by
  have h := callback_error_preserves_pending none (.ok "a@x.com") "code1" 0
    { code := some "c", state := some "gs1", error := some "access_denied" } c10st (by decide)
  refine ⟨h.1, ?_⟩
  have h2 := h.2 { code := some "c", state := some "gs1", error := none }
    ⟨"cl1", "https://cb", "ch", "S256", "cs", 0⟩ "a@x.com" "code2" 5 none
    (by decide) rfl (by decide) (Or.inl rfl)
  simpa using h2

/-! ### Claim C5 -/

/-- C5: with a configured allowlist, a callback whose resolved email is not
a member fails with the 403 access-denied page and adds no AuthorizationCode
to the store; with the allowlist unconfigured, the same callback proceeds to
mint an AuthorizationCode and redirect back to the client. -/
theorem allowlist_enforcement (email ourCode : String) (now : Nat)
    (req : CallbackRequest) (st : ServerState) (pending : PendingAuth)
    (herr : truthy req.error = false)
    (hpend : req.state.bind (mget st.pendingAuths) = some pending) :
    (∀ allowed : List String, email ∉ allowed →
       (handleCallback (some allowed) (.ok email) ourCode now req st).1 =
         .errPage 403 "Access denied" ∧
       (handleCallback (some allowed) (.ok email) ourCode now req st).2.authCodes =
         st.authCodes) ∧
    ((handleCallback none (.ok email) ourCode now req st).1 =
       .redirect pending.redirectUri ourCode
         (if pending.clientState ≠ "" then some pending.clientState else none) ∧
     mget (handleCallback none (.ok email) ourCode now req st).2.authCodes ourCode =
       some ⟨ourCode, pending.clientId, pending.redirectUri, pending.codeChallenge,
             pending.codeChallengeMethod, email, now + 5 * 60000⟩) := by
  constructor
  · intro allowed hmem
    constructor
    · simp [handleCallback, herr, hpend, hmem]
    · simp [handleCallback, herr, hpend, hmem]
  · rw [handleCallback_success none email ourCode now req st pending herr hpend (Or.inl rfl)]
    exact ⟨rfl, mget_mset_self _ _ _⟩

/-- C5 witness: with allowlist containing only one address, a callback
resolving another address yields the 403 page and no new AuthorizationCode;
with no allowlist the same callback mints the code. -/
theorem allowlist_enforcement_witness :
    ((handleCallback (some ["a@x.com"]) (.ok "b@x.com") "code1" 0
        { code := some "c", state := some "gs1", error := none } c10st).1 =
      .errPage 403 "Access denied" ∧
     (handleCallback (some ["a@x.com"]) (.ok "b@x.com") "code1" 0
        { code := some "c", state := some "gs1", error := none } c10st).2.authCodes =
      c10st.authCodes) ∧
    mget (handleCallback none (.ok "b@x.com") "code1" 0
        { code := some "c", state := some "gs1", error := none } c10st).2.authCodes "code1" =
      some ⟨"code1", "cl1", "https://cb", "ch", "S256", "b@x.com", 300000⟩ := by
  have h := allowlist_enforcement "b@x.com" "code1" 0
    { code := some "c", state := some "gs1", error := none } c10st
    ⟨"cl1", "https://cb", "ch", "S256", "cs", 0⟩ (by decide) (by decide)
  exact ⟨h.1 ["a@x.com"] (by decide), h.2.2⟩

theorem handleToken_refresh_success (now : Nat) (a r : String)
    (req : TokenRequest) (st : ServerState) (stored : StoredToken)
    (hcid : truthy req.client_id = true)
    (hsec : secretMismatch st (req.client_id.getD "") req.client_secret = false)
    (hgt : req.grant_type = some "refresh_token")
    (hlook : req.refresh_token.bind (mget st.refreshTokens) = some stored)
    (hmatch : stored.clientId = req.client_id.getD "") :
    handleToken now a r req st =
      (.ok a "Bearer" 3600 none,
       { st with
         accessTokens := mset st.accessTokens a
           ⟨req.client_id.getD "", stored.googleEmail, now + 3600 * 1000⟩ }) := by
  simp [handleToken, hcid, hsec, hgt, hlook, hmatch]

/-! ### Claim C4 -/

/-- C4: a refresh_token grant whose token is absent from the store or whose
stored owning client id differs from the request client_id fails
invalid_grant with the state unchanged; a successful refresh adds exactly
one AccessToken bound to the stored client id and identity, changes nothing
else — in particular the RefreshToken entry is neither rotated, deleted nor
modified, and the response carries no refresh_token — and a second refresh
with the same RefreshToken also succeeds, yielding a second distinct
AccessToken coexisting with the first. -/
theorem refresh_grant_frame (now now2 : Nat) (a1 r1 a2 r2 : String)
    (req : TokenRequest) (st : ServerState)
    (hgt : req.grant_type = some "refresh_token")
    (hcid : truthy req.client_id = true)
    (hsec : secretMismatch st (req.client_id.getD "") req.client_secret = false) :
    ((req.refresh_token.bind (mget st.refreshTokens) = none ∨
      (∃ stored, req.refresh_token.bind (mget st.refreshTokens) = some stored ∧
        stored.clientId ≠ req.client_id.getD "")) →
      handleToken now a1 r1 req st =
        (.err 400 "invalid_grant" (some "Invalid refresh token"), st)) ∧
    (∀ stored, req.refresh_token.bind (mget st.refreshTokens) = some stored →
      stored.clientId = req.client_id.getD "" →
      (handleToken now a1 r1 req st).1 = .ok a1 "Bearer" 3600 none ∧
      mget (handleToken now a1 r1 req st).2.accessTokens a1 =
        some ⟨stored.clientId, stored.googleEmail, now + 3600 * 1000⟩ ∧
      (∀ k, k ≠ a1 → mget (handleToken now a1 r1 req st).2.accessTokens k =
        mget st.accessTokens k) ∧
      (handleToken now a1 r1 req st).2.refreshTokens = st.refreshTokens ∧
      (handleToken now a1 r1 req st).2.clients = st.clients ∧
      (handleToken now a1 r1 req st).2.pendingAuths = st.pendingAuths ∧
      (handleToken now a1 r1 req st).2.authCodes = st.authCodes ∧
      (a2 ≠ a1 →
        (handleToken now2 a2 r2 req (handleToken now a1 r1 req st).2).1 =
          .ok a2 "Bearer" 3600 none ∧
        mget (handleToken now2 a2 r2 req
          (handleToken now a1 r1 req st).2).2.accessTokens a2 =
          some ⟨stored.clientId, stored.googleEmail, now2 + 3600 * 1000⟩ ∧
        mget (handleToken now2 a2 r2 req
          (handleToken now a1 r1 req st).2).2.accessTokens a1 =
          some ⟨stored.clientId, stored.googleEmail, now + 3600 * 1000⟩)) := by
  constructor
  · rintro (hnone | ⟨stored, hlook, hne⟩)
    · simp [handleToken, hcid, hsec, hgt, hnone]
    · simp [handleToken, hcid, hsec, hgt, hlook, hne]
  · intro stored hlook hmatch
    have e1 := handleToken_refresh_success now a1 r1 req st stored hcid hsec hgt hlook hmatch
    have hout1 : (handleToken now a1 r1 req st).1 = .ok a1 "Bearer" 3600 none := by rw [e1]
    have hacc1 : (handleToken now a1 r1 req st).2.accessTokens =
        mset st.accessTokens a1
          ⟨req.client_id.getD "", stored.googleEmail, now + 3600 * 1000⟩ := by rw [e1]
    have href1 : (handleToken now a1 r1 req st).2.refreshTokens = st.refreshTokens := by
      rw [e1]
    have hcl1 : (handleToken now a1 r1 req st).2.clients = st.clients := by rw [e1]
    have hpa1 : (handleToken now a1 r1 req st).2.pendingAuths = st.pendingAuths := by rw [e1]
    have hac1 : (handleToken now a1 r1 req st).2.authCodes = st.authCodes := by rw [e1]
    refine ⟨hout1, ?_, ?_, href1, hcl1, hpa1, hac1, ?_⟩
    · rw [hacc1, hmatch]
      exact mget_mset_self _ _ _
    · intro k hk
      rw [hacc1]
      exact mget_mset_ne _ _ _ _ hk
    · intro hne2
      have e2 := handleToken_refresh_success now2 a2 r2 req
        (handleToken now a1 r1 req st).2 stored hcid (by rw [e1]; exact hsec) hgt
        (by rw [e1]; exact hlook) hmatch
      have hacc2 : (handleToken now2 a2 r2 req
          (handleToken now a1 r1 req st).2).2.accessTokens =
          mset ((handleToken now a1 r1 req st).2.accessTokens) a2
            ⟨req.client_id.getD "", stored.googleEmail, now2 + 3600 * 1000⟩ := by rw [e2]
      refine ⟨by rw [e2], ?_, ?_⟩
      · rw [hacc2, hmatch]
        exact mget_mset_self _ _ _
      · rw [hacc2, mget_mset_ne _ _ _ _ (Ne.symm hne2), hacc1, hmatch]
        exact mget_mset_self _ _ _

/-- Concrete refresh request for the C4 witness. -/
def c4req : TokenRequest :=
  { grant_type := some "refresh_token", code := none, redirect_uri := none,
    client_id := some "cl1", client_secret := none, code_verifier := none,
    refresh_token := some "r1" }

/-- Concrete server state with one stored refresh token for the C4 witness. -/
def c4st : ServerState :=
  { clients := [], pendingAuths := [], authCodes := [], accessTokens := [],
    refreshTokens := [("r1", ⟨"cl1", "a@x.com", 0⟩)] }

/-- C4 witness: a concrete double refresh with the same RefreshToken — both
calls succeed, the refresh-token store is untouched, and the two distinct
access tokens coexist. -/
theorem refresh_grant_frame_witness :
    (handleToken 0 "at1" "x1" c4req c4st).1 = .ok "at1" "Bearer" 3600 none ∧
    (handleToken 0 "at1" "x1" c4req c4st).2.refreshTokens = c4st.refreshTokens ∧
    (handleToken 7 "at2" "x2" c4req (handleToken 0 "at1" "x1" c4req c4st).2).1 =
      .ok "at2" "Bearer" 3600 none ∧
    mget (handleToken 7 "at2" "x2" c4req
      (handleToken 0 "at1" "x1" c4req c4st).2).2.accessTokens "at1" =
      some ⟨"cl1", "a@x.com", 3600000⟩ ∧
    mget (handleToken 7 "at2" "x2" c4req
      (handleToken 0 "at1" "x1" c4req c4st).2).2.accessTokens "at2" =
      some ⟨"cl1", "a@x.com", 3600007⟩ := by
  have h := (refresh_grant_frame 0 7 "at1" "x1" "at2" "x2" c4req c4st
    (by decide) (by decide) (by decide)).2 ⟨"cl1", "a@x.com", 0⟩ (by decide) (by decide)
  have h2 := h.2.2.2.2.2.2.2 (by decide)
  refine ⟨h.1, h.2.2.2.1, h2.1, ?_, ?_⟩
  · simpa using h2.2.2
  · simpa using h2.2.1

/-! ### Claim C1 -/

/-- C1: when an authorization_code token call finds an AuthorizationCode for
the supplied code, the record is deleted from the code store whatever the
outcome of the subsequent expiry, client_id/redirect_uri and PKCE checks;
consequently any further authorization_code redemption of the same code
(with any code_verifier, redirect_uri or client whose request passes the
common client precondition) fails invalid_grant. -/
theorem authCode_single_use (now now2 : Nat) (a r a2 r2 : String)
    (req req2 : TokenRequest) (st : ServerState) (c : String) (ac : AuthCode)
    (hgt : req.grant_type = some "authorization_code")
    (hcid : truthy req.client_id = true)
    (hsec : secretMismatch st (req.client_id.getD "") req.client_secret = false)
    (hc : req.code = some c)
    (hfound : mget st.authCodes c = some ac) :
    (handleToken now a r req st).2.authCodes = mdel st.authCodes c ∧
    (req2.grant_type = some "authorization_code" → req2.code = some c →
      truthy req2.client_id = true →
      secretMismatch (handleToken now a r req st).2 (req2.client_id.getD "")
        req2.client_secret = false →
      (handleToken now2 a2 r2 req2 (handleToken now a r req st).2).1 =
        .err 400 "invalid_grant" (some "Invalid or expired code")) := by
  have hdel : (handleToken now a r req st).2.authCodes = mdel st.authCodes c := by
    by_cases e1 : now > ac.expiresAt
    · simp [handleToken, hcid, hsec, hgt, hfound, e1, hc]
    · by_cases m1 : ac.clientId ≠ req.client_id.getD "" ∨
          some ac.redirectUri ≠ req.redirect_uri
      · simp [handleToken, hcid, hsec, hgt, hfound, e1, m1, hc]
      · by_cases p1 : truthy req.code_verifier = false ∨
            sha256 (req.code_verifier.getD "") ≠ ac.codeChallenge
        · simp [handleToken, hcid, hsec, hgt, hfound, e1, m1, p1, hc]
        · simp [handleToken, hcid, hsec, hgt, hfound, e1, m1, p1, hc]
  refine ⟨hdel, ?_⟩
  intro hgt2 hc2 hcid2 hsec2
  have hlook2 : mget (handleToken now a r req st).2.authCodes c = none := by
    rw [hdel]
    exact mget_mdel_self _ _
  generalize hg : (handleToken now a r req st).2 = st2 at hlook2 hsec2
  simp [handleToken, hcid2, hsec2, hgt2, hc2, hlook2]

/-- Concrete AuthorizationCode for the C1 witness (challenge never matched). -/
def c1ac : AuthCode := ⟨"c1", "cl1", "https://cb", "ch", "S256", "a@x.com", 1000⟩

/-- Concrete server state for the C1 witness. -/
def c1st : ServerState :=
  { clients := [], pendingAuths := [], authCodes := [("c1", c1ac)],
    accessTokens := [], refreshTokens := [] }

/-- Concrete first redemption request for the C1 witness: it fails PKCE
(no code_verifier) yet still consumes the code. -/
def c1req : TokenRequest :=
  { grant_type := some "authorization_code", code := some "c1",
    redirect_uri := some "https://cb", client_id := some "cl1", client_secret := none,
    code_verifier := none, refresh_token := none }

/-- C1 witness: a concrete redemption that fails PKCE still deletes the
code, and the identical retry then fails invalid_grant. -/
theorem authCode_single_use_witness :
    mget c1st.authCodes "c1" = some c1ac ∧
    (handleToken 0 "a" "r" c1req c1st).1 =
      .err 400 "invalid_grant" (some "PKCE verification failed") ∧
    (handleToken 0 "a" "r" c1req c1st).2.authCodes = mdel c1st.authCodes "c1" ∧
    (handleToken 1 "a2" "r2" c1req (handleToken 0 "a" "r" c1req c1st).2).1 =
      .err 400 "invalid_grant" (some "Invalid or expired code") := by
  have h := authCode_single_use 0 1 "a" "r" "a2" "r2" c1req c1req c1st "c1" c1ac
    rfl (by decide) rfl rfl rfl
  exact ⟨rfl, by decide, h.1, h.2 rfl rfl (by decide) (by decide)⟩

/-! ### Claim C2 -/

/-- C2 counterexample to the claim as stated: an AuthorizationCode whose
stored code_challenge is the SHA-256 base64url digest of the empty string,
redeemed with the supplied code_verifier equal to the empty string.  The
verifier is supplied and its hash equals the stored challenge, and every
other check passes, yet the code rejects the request with invalid_grant,
because the handler treats an empty code_verifier as absent (JS falsiness)
before ever hashing it. -/
def c2cexAc : AuthCode := ⟨"c1", "cl1", "https://cb", sha256 "", "S256", "a@x.com", 1000⟩

/-- Concrete server state for the C2 counterexample. -/
def c2cexSt : ServerState :=
  { clients := [], pendingAuths := [], authCodes := [("c1", c2cexAc)],
    accessTokens := [], refreshTokens := [] }

/-- Concrete token request with an empty (but supplied) code_verifier. -/
def c2cexReq : TokenRequest :=
  { grant_type := some "authorization_code", code := some "c1",
    redirect_uri := some "https://cb", client_id := some "cl1", client_secret := none,
    code_verifier := some "", refresh_token := none }

/-- C2 counterexample theorem: the supplied verifier hashes to the stored
challenge and all other checks pass, but the call fails invalid_grant. -/
theorem pkce_verification_counterexample :
    (∃ v, c2cexReq.code_verifier = some v ∧ sha256 v = c2cexAc.codeChallenge) ∧
    mget c2cexSt.authCodes "c1" = some c2cexAc ∧
    ¬ (0 : Nat) > c2cexAc.expiresAt ∧
    c2cexAc.clientId = c2cexReq.client_id.getD "" ∧
    some c2cexAc.redirectUri = c2cexReq.redirect_uri ∧
    (handleToken 0 "a" "r" c2cexReq c2cexSt).1 =
      .err 400 "invalid_grant" (some "PKCE verification failed") := by
  refine ⟨⟨"", rfl, rfl⟩, rfl, by decide, rfl, rfl, rfl⟩

/-- C2 (amended): for an authorization_code request that passes the client,
expiry, and client_id/redirect_uri checks against a stored AuthorizationCode
with challenge C, the request succeeds if and only if a non-empty
code_verifier is supplied whose SHA-256 base64url digest equals C; and
whenever no such verifier is supplied — it is missing, empty, or its digest
differs from C — the request fails with the 400 invalid_grant outcome
carrying the PKCE-verification-failed description. -/
theorem pkce_verification (now : Nat) (a r : String) (req : TokenRequest)
    (st : ServerState) (c : String) (ac : AuthCode)
    (hgt : req.grant_type = some "authorization_code")
    (hcid : truthy req.client_id = true)
    (hsec : secretMismatch st (req.client_id.getD "") req.client_secret = false)
    (hc : req.code = some c)
    (hfound : mget st.authCodes c = some ac)
    (hexp : ¬ now > ac.expiresAt)
    (hmcid : ac.clientId = req.client_id.getD "")
    (hmred : some ac.redirectUri = req.redirect_uri) :
    ((handleToken now a r req st).1 = .ok a "Bearer" 3600 (some r) ↔
      (∃ v, req.code_verifier = some v ∧ v ≠ "" ∧ sha256 v = ac.codeChallenge)) ∧
    ((¬ ∃ v, req.code_verifier = some v ∧ v ≠ "" ∧ sha256 v = ac.codeChallenge) →
      (handleToken now a r req st).1 =
        .err 400 "invalid_grant" (some "PKCE verification failed")) := by
  by_cases p1 : truthy req.code_verifier = false ∨
      sha256 (req.code_verifier.getD "") ≠ ac.codeChallenge
  · have herr : (handleToken now a r req st).1 =
        .err 400 "invalid_grant" (some "PKCE verification failed") := by
      simp [handleToken, hcid, hsec, hgt, hc, hfound, hexp, hmcid, hmred, p1]
    have hnex : ¬ ∃ v, req.code_verifier = some v ∧ v ≠ "" ∧
        sha256 v = ac.codeChallenge := by
      rintro ⟨v, hv, hvne, hhash⟩
      rcases p1 with hfalsy | hdiff
      · rw [hv] at hfalsy
        simp [truthy] at hfalsy
        exact hvne hfalsy
      · rw [hv] at hdiff
        exact hdiff hhash
    refine ⟨⟨fun hok => ?_, fun hex => absurd hex hnex⟩, fun _ => herr⟩
    rw [herr] at hok
    exact TokenOutcome.noConfusion hok
  · have hok : (handleToken now a r req st).1 = .ok a "Bearer" 3600 (some r) := by
      simp [handleToken, hcid, hsec, hgt, hc, hfound, hexp, hmcid, hmred, p1]
    have hex : ∃ v, req.code_verifier = some v ∧ v ≠ "" ∧
        sha256 v = ac.codeChallenge := by
      push_neg at p1
      obtain ⟨ptruthy, phash⟩ := p1
      cases hv : req.code_verifier with
      | none => rw [hv] at ptruthy; simp [truthy] at ptruthy
      | some v =>
        rw [hv] at ptruthy phash
        refine ⟨v, rfl, ?_, by simpa using phash⟩
        intro hempty
        subst hempty
        simp [truthy] at ptruthy
    exact ⟨⟨fun _ => hex, fun _ => hok⟩, fun hno => absurd hex hno⟩

/-- Concrete AuthorizationCode whose challenge is the digest of abc, for the
C2 witness. -/
def c2ac : AuthCode := ⟨"c1", "cl1", "https://cb", sha256 "abc", "S256", "a@x.com", 1000⟩

/-- Concrete server state for the C2 witness. -/
def c2st : ServerState :=
  { clients := [], pendingAuths := [], authCodes := [("c1", c2ac)],
    accessTokens := [], refreshTokens := [] }

/-- Concrete token request redeeming with verifier abc, for the C2 witness. -/
def c2req : TokenRequest :=
  { grant_type := some "authorization_code", code := some "c1",
    redirect_uri := some "https://cb", client_id := some "cl1", client_secret := none,
    code_verifier := some "abc", refresh_token := none }

/-- C2 witness: a code minted with challenge sha256 of abc is redeemable
with verifier abc, and redeeming the same code with the non-matching
verifier named wrong fails with the 400 invalid_grant PKCE outcome. -/
theorem pkce_verification_witness :
    mget c2st.authCodes "c1" = some c2ac ∧
    sha256 "abc" = c2ac.codeChallenge ∧
    (handleToken 0 "at1" "rt1" c2req c2st).1 = .ok "at1" "Bearer" 3600 (some "rt1") ∧
    (handleToken 0 "at1" "rt1" { c2req with code_verifier := some "wrong" } c2st).1 =
      .err 400 "invalid_grant" (some "PKCE verification failed") := by
  refine ⟨rfl, rfl, ?_, ?_⟩
  · exact (pkce_verification 0 "at1" "rt1" c2req c2st "c1" c2ac rfl (by decide) rfl rfl rfl
      (by decide) rfl rfl).1.mpr ⟨"abc", rfl, by decide, rfl⟩
  · refine (pkce_verification 0 "at1" "rt1" { c2req with code_verifier := some "wrong" }
      c2st "c1" c2ac rfl (by decide) rfl rfl rfl (by decide) rfl rfl).2 ?_
    rintro ⟨v, hv, hvne, hhash⟩
    have hveq : "wrong" = v := Option.some.inj hv
    subst hveq
    exact absurd hhash (by decide)
